import Mathlib

/-!
Verification of the whitespace-cleaner post-tool-use hook
(claude_hooks/hooks/whitespace-cleaner/src/main.rs).

The program is sequential glue: it reads three environment variables,
splits the file-paths variable on whitespace, and for each token invokes
the external stream editor sed, optionally the rustfmt formatter, and
optionally a remote Claude analysis call.  We embed it as a pure function
from the environment snapshot and an oracle for the external effects
(the sed / rustfmt / claude outcomes per loop iteration, and whether the
current working directory resolves) to a trace of observable events:
lines printed to stdout and stderr, and the external invocations made.
-/

/-- Outcome of launching an external command, mirroring
std::process::Command::output(): Ok carries the success flag of the exit
status and the captured stderr text; launchErr is the Err case (the
command could not be launched at all). -/
inductive CmdResult where
  | ok (success : Bool) (errText : String)
  | launchErr (msg : String)
deriving DecidableEq

/-- Outcome of client.query(prompt).send(): a response text or an error. -/
inductive QueryResult where
  | ok (response : String)
  | err (msg : String)
deriving DecidableEq

/-- Observable events of a run: stdout and stderr lines, and the three
kinds of external invocation the program performs. -/
inductive Event where
  | stdout (line : String)
  | stderr (line : String)
  | sedInvoke (path : String)
  | rustfmtInvoke (path : String)
  | claudeQuery (prompt : String)
deriving DecidableEq

/-- Split a character list at a separator character, keeping empty
segments (the semantics of splitting on every occurrence). -/
def splitOnChar (sep : Char) : List Char → List (List Char)
  | [] => [[]]
  | c :: cs =>
    if c = sep then [] :: splitOnChar sep cs
    else
      match splitOnChar sep cs with
      | [] => [[c]]
      | g :: gs => (c :: g) :: gs

/-- Model of Rust Path::file_name on a Unix path string: the last
component of the path after dropping empty and "." components; none when
no component remains or the last component is "..". -/
def fileName (p : String) : Option (List Char) :=
  let comps := (splitOnChar '/' p.toList).filter
    (fun c => !c.isEmpty && !(c == ['.']))
  match comps.getLast? with
  | none => none
  | some c => if c == ['.', '.'] then none else some c

/-- Model of Rust Path::extension: the portion of the file name after the
last '.' occurring at an index greater than zero; none when the file name
is absent, or contains no '.' beyond its first character (so a leading
dot alone, as in ".rs", yields no extension). -/
def extension (p : String) : Option String :=
  match fileName p with
  | none => none
  | some [] => none
  | some (c0 :: rest) =>
    if rest.contains '.' then
      some (String.mk (((c0 :: rest).reverse.takeWhile (fun c => c != '.')).reverse))
    else none

/-- get_file_type from main.rs: classify a file path by its extension. -/
def get_file_type (file_path : String) : String :=
  match extension file_path with
  | none => "text"
  | some e =>
    if e = "rs" then "Rust"
    else if e = "js" then "JavaScript/TypeScript"
    else if e = "ts" then "JavaScript/TypeScript"
    else if e = "py" then "Python"
    else if e = "json" then "JSON"
    else if e = "toml" then "TOML"
    else if e = "md" then "Markdown"
    else "text"

/-- Accumulator-passing splitter behind splitWhitespace. -/
def splitWSAux : List Char → List Char → List String
  | [], acc => if acc.isEmpty then [] else [String.mk acc.reverse]
  | c :: cs, acc =>
    if c.isWhitespace then
      if acc.isEmpty then splitWSAux cs []
      else String.mk acc.reverse :: splitWSAux cs []
    else splitWSAux cs (c :: acc)

/-- Model of Rust str::split_whitespace: split on runs of whitespace,
discarding empty tokens, preserving order. -/
def splitWhitespace (s : String) : List String :=
  splitWSAux s.toList []

/-- The environment snapshot read at startup: the three environment
variables CLAUDE_FILE_PATHS, CLAUDE_TOOL_OUTPUT, CLAUDE_PROJECT_DIR,
each possibly unset. -/
structure Env where
  filePaths : Option String
  toolOutput : Option String
  projectDir : Option String

/-- Oracle for the external world: whether env::current_dir() resolves
(and to what), and the outcome of the sed, rustfmt and claude calls made
during loop iteration i. -/
structure Oracles where
  cwd : Option String
  sed : Nat → CmdResult
  rustfmt : Nat → CmdResult
  claude : Nat → QueryResult

/-- Result of a run: main either panics during startup directory
resolution (a non-zero process exit, nothing processed) or runs to
completion returning Ok(()) (exit code 0) with a trace of events. -/
inductive RunResult where
  | panicked : RunResult
  | finished (events : List Event) : RunResult
deriving DecidableEq

/-- apply_smart_cleanup from main.rs: invoke sed on the file, report its
outcome (success confirmation to stdout, a failure or launch error to
stderr), then apply language-specific formatting: for Rust files invoke
rustfmt and print a confirmation only on success (failures are silently
ignored), for JSON files print a notice only, otherwise do nothing. -/
def apply_smart_cleanup (sed_result fmt_result : CmdResult) (file_path : String) :
    List Event :=
  Event.sedInvoke file_path ::
  (match sed_result with
   | CmdResult.ok true _ => Event.stdout ("🧹 Removed trailing whitespace")
   | CmdResult.ok false e => Event.stderr ("⚠️  sed failed: " ++ e)
   | CmdResult.launchErr e => Event.stderr ("⚠️  Failed to run sed: " ++ e)) ::
  (if get_file_type file_path = "Rust" then
    Event.rustfmtInvoke file_path ::
      (match fmt_result with
       | CmdResult.ok true _ => [Event.stdout ("🦀 Applied rustfmt formatting")]
       | _ => [])
  else if get_file_type file_path = "JSON" then
    [Event.stdout ("📋 JSON file detected")]
  else [])

/-- The analysis prompt built by analyze_with_claude from main.rs. -/
def analysis_prompt (file_path tool_output : String) : String :=
  "Analyze this " ++ get_file_type file_path ++
    " file change for code quality and suggest improvements:\n\nTool Output: " ++
    tool_output ++ "\nFile: " ++ file_path

/-- analyze_with_claude from main.rs: send the analysis prompt; on
success print a labeled analysis block with the response, on failure
print a diagnostic to stderr. -/
def analyze_with_claude (query_result : QueryResult) (file_path tool_output : String) :
    List Event :=
  Event.claudeQuery (analysis_prompt file_path tool_output) ::
  (match query_result with
   | QueryResult.ok analysis =>
       [Event.stdout ("🤖 Claude Analysis:"), Event.stdout analysis]
   | QueryResult.err e =>
       [Event.stderr ("⚠️  Claude analysis failed: " ++ e)])

/-- One iteration of the per-file loop in main: print the progress line,
run apply_smart_cleanup, and run analyze_with_claude when the tool-output
text is non-empty. -/
def processFile (tool_output : String) (orc : Oracles) (i : Nat) (file_path : String) :
    List Event :=
  Event.stdout ("\n📄 Processing: " ++ file_path) ::
  (apply_smart_cleanup (orc.sed i) (orc.rustfmt i) file_path ++
    (if tool_output.isEmpty then []
     else analyze_with_claude (orc.claude i) file_path tool_output))

/-- The per-file loop of main, processing tokens left to right; i is the
index of the current iteration, threading the oracle. -/
def runLoop (tool_output : String) (orc : Oracles) (i : Nat) : List String → List Event
  | [] => []
  | p :: ps => processFile tool_output orc i p ++ runLoop tool_output orc (i + 1) ps

/-- The body of main after the project directory has been resolved:
print the banner; if the raw file-paths string is empty print the
warning and return Ok, else run the loop over the whitespace-split
tokens and print the final success line. -/
def run_body (file_paths tool_output project_dir : String) (orc : Oracles) : RunResult :=
  let banner := [Event.stdout ("🔧 Claude Code PostToolUse Hook"),
                 Event.stdout ("📁 Project Directory: " ++ project_dir)]
  if file_paths.isEmpty then
    RunResult.finished (banner ++ [Event.stdout ("⚠️  No file paths provided")])
  else
    RunResult.finished
      (banner ++ runLoop tool_output orc 0 (splitWhitespace file_paths) ++
        [Event.stdout ("\n✅ Enhanced hook processed successfully")])

/-- main from main.rs: read the three environment variables with their
defaults; resolving the project directory calls env::current_dir only
when the variable is unset, and .unwrap() panics when that resolution
fails — the only non-zero exit of the program. -/
def run_main (env : Env) (orc : Oracles) : RunResult :=
  let file_paths := env.filePaths.getD ""
  let tool_output := env.toolOutput.getD ""
  match env.projectDir, orc.cwd with
  | none, none => RunResult.panicked
  | none, some d => run_body file_paths tool_output d orc
  | some d, _ => run_body file_paths tool_output d orc

/-- The sed invocations recorded in a trace, in order. -/
def sedCallsOf (evs : List Event) : List String :=
  evs.filterMap (fun e =>
    match e with
    | Event.sedInvoke p => some p
    | _ => none)

/-- The rustfmt invocations recorded in a trace, in order. -/
def rustfmtCallsOf (evs : List Event) : List String :=
  evs.filterMap (fun e =>
    match e with
    | Event.rustfmtInvoke p => some p
    | _ => none)

/-- The claude query prompts recorded in a trace, in order. -/
def queriesOf (evs : List Event) : List String :=
  evs.filterMap (fun e =>
    match e with
    | Event.claudeQuery p => some p
    | _ => none)

/-- The stderr lines recorded in a trace, in order. -/
def stderrOf (evs : List Event) : List String :=
  evs.filterMap (fun e =>
    match e with
    | Event.stderr s => some s
    | _ => none)

/-- The event trace of a run (empty when it panicked at startup). -/
def eventsOf : RunResult → List Event
  | RunResult.panicked => []
  | RunResult.finished evs => evs

/-- Whether a run completed normally with exit code 0. -/
def isFinished : RunResult → Bool
  | RunResult.panicked => false
  | RunResult.finished _ => true

/-- Whether a command outcome is a successful exit. -/
def isSuccess : CmdResult → Bool
  | CmdResult.ok b _ => b
  | CmdResult.launchErr _ => false

/-- Whether a character list starts with another one. -/
def startsWithL : List Char → List Char → Bool
  | [], _ => true
  | _ :: _, [] => false
  | a :: as, b :: bs => a = b && startsWithL (as) (bs)

/-- Whether a character list occurs contiguously inside another one. -/
def occursIn (sub : List Char) : List Char → Bool
  | [] => sub.isEmpty
  | c :: rest => startsWithL (sub) (c :: rest) || occursIn sub rest

/-- Substring containment on strings. -/
def containsStr (s sub : String) : Bool :=
  occursIn sub.toList s.toList

/-- The formatting step of apply_smart_cleanup (its second half), as a
standalone definition, used to state that each sed outcome is followed
by the formatting step. -/
def format_events (fmt_result : CmdResult) (file_path : String) : List Event :=
  if get_file_type file_path = "Rust" then
    Event.rustfmtInvoke file_path ::
      (match fmt_result with
       | CmdResult.ok true _ => [Event.stdout ("🦀 Applied rustfmt formatting")]
       | _ => [])
  else if get_file_type file_path = "JSON" then
    [Event.stdout ("📋 JSON file detected")]
  else []

/-- A concrete oracle where every external call succeeds. -/
def orcDefault : Oracles :=
  Oracles.mk (some ("/w")) (fun _ => CmdResult.ok true (""))
    (fun _ => CmdResult.ok true ("")) (fun _ => QueryResult.ok ("fine"))

/-- A concrete environment whose file-paths variable is whitespace-only. -/
def envC1 : Env := Env.mk (some ("   ")) (some ("")) (some ("/p"))

/-- A concrete environment with no file-paths variable set. -/
def envNoPaths : Env := Env.mk none none (some ("/p"))

/-- A concrete environment with two file paths and non-empty tool output. -/
def envW : Env := Env.mk (some ("a.rs b.py")) (some ("edited")) (some ("/p"))

theorem sedCalls_append (l1 l2 : List Event) :
    sedCallsOf (l1 ++ l2) = sedCallsOf l1 ++ sedCallsOf l2 := by
  simp [sedCallsOf]

theorem rustfmtCalls_append (l1 l2 : List Event) :
    rustfmtCallsOf (l1 ++ l2) = rustfmtCallsOf l1 ++ rustfmtCallsOf l2 := by
  simp [rustfmtCallsOf]

theorem queries_append (l1 l2 : List Event) :
    queriesOf (l1 ++ l2) = queriesOf l1 ++ queriesOf l2 := by
  simp [queriesOf]

theorem sedCalls_apply (r f : CmdResult) (p : String) :
    sedCallsOf (apply_smart_cleanup r f p) = [p] := by
  rcases r with ⟨_ | _, s⟩ | m <;> rcases f with ⟨_ | _, s2⟩ | m2 <;>
    simp [apply_smart_cleanup, sedCallsOf] <;> split_ifs <;> simp

theorem rustfmtCalls_apply (r f : CmdResult) (p : String) :
    rustfmtCallsOf (apply_smart_cleanup r f p) =
      if get_file_type p = "Rust" then [p] else [] := by
  rcases r with ⟨_ | _, s⟩ | m <;> rcases f with ⟨_ | _, s2⟩ | m2 <;>
    simp [apply_smart_cleanup, rustfmtCallsOf] <;> split_ifs <;> simp

theorem queries_apply (r f : CmdResult) (p : String) :
    queriesOf (apply_smart_cleanup r f p) = [] := by
  rcases r with ⟨_ | _, s⟩ | m <;> rcases f with ⟨_ | _, s2⟩ | m2 <;>
    simp [apply_smart_cleanup, queriesOf] <;> split_ifs <;> simp

theorem sedCalls_analyze (q : QueryResult) (p t : String) :
    sedCallsOf (analyze_with_claude q p t) = [] := by
  rcases q with a | e <;> simp [analyze_with_claude, sedCallsOf]

theorem rustfmtCalls_analyze (q : QueryResult) (p t : String) :
    rustfmtCallsOf (analyze_with_claude q p t) = [] := by
  rcases q with a | e <;> simp [analyze_with_claude, rustfmtCallsOf]

theorem queries_analyze (q : QueryResult) (p t : String) :
    queriesOf (analyze_with_claude q p t) = [analysis_prompt p t] := by
  rcases q with a | e <;> simp [analyze_with_claude, queriesOf]

theorem sedCalls_nil : sedCallsOf [] = [] := by simp [sedCallsOf]

theorem sedCalls_cons_stdout (s : String) (evs : List Event) :
    sedCallsOf (Event.stdout s :: evs) = sedCallsOf evs := by
  simp [sedCallsOf]

theorem rustfmtCalls_nil : rustfmtCallsOf [] = [] := by simp [rustfmtCallsOf]

theorem rustfmtCalls_cons_stdout (s : String) (evs : List Event) :
    rustfmtCallsOf (Event.stdout s :: evs) = rustfmtCallsOf evs := by
  simp [rustfmtCallsOf]

theorem queries_nil : queriesOf [] = [] := by simp [queriesOf]

theorem queries_cons_stdout (s : String) (evs : List Event) :
    queriesOf (Event.stdout s :: evs) = queriesOf evs := by
  simp [queriesOf]

theorem sedCalls_processFile (t : String) (orc : Oracles) (i : Nat) (p : String) :
    sedCallsOf (processFile t orc i p) = [p] := by
  by_cases ht : t.isEmpty <;>
    simp [processFile, ht, sedCalls_cons_stdout, sedCalls_append, sedCalls_apply,
      sedCalls_analyze, sedCalls_nil]

theorem rustfmtCalls_processFile (t : String) (orc : Oracles) (i : Nat) (p : String) :
    rustfmtCallsOf (processFile t orc i p) =
      if get_file_type p = "Rust" then [p] else [] := by
  by_cases ht : t.isEmpty <;>
    simp [processFile, ht, rustfmtCalls_cons_stdout, rustfmtCalls_append,
      rustfmtCalls_apply, rustfmtCalls_analyze, rustfmtCalls_nil]

theorem queries_processFile (t : String) (orc : Oracles) (i : Nat) (p : String) :
    queriesOf (processFile t orc i p) =
      if t.isEmpty then [] else [analysis_prompt p t] := by
  by_cases ht : t.isEmpty <;>
    simp [processFile, ht, queries_cons_stdout, queries_append, queries_apply,
      queries_analyze, queries_nil]

theorem sedCalls_runLoop (t : String) (orc : Oracles) :
    ∀ (ps : List String) (i : Nat), sedCallsOf (runLoop t orc i ps) = ps := by
  intro ps
  induction ps with
  | nil => intro i; simp [runLoop, sedCalls_nil]
  | cons p ps ih =>
    intro i
    simp [runLoop, sedCalls_append, sedCalls_processFile, ih]

theorem queries_runLoop (t : String) (orc : Oracles) :
    ∀ (ps : List String) (i : Nat),
      queriesOf (runLoop t orc i ps) =
        if t.isEmpty then [] else ps.map (fun p => analysis_prompt p t) := by
  intro ps
  induction ps with
  | nil => intro i; by_cases ht : t.isEmpty <;> simp [runLoop, queries_nil, ht]
  | cons p ps ih =>
    intro i
    by_cases ht : t.isEmpty <;>
      simp [runLoop, queries_append, queries_processFile, ih, ht]

theorem run_body_finished (fp t d : String) (orc : Oracles) :
    isFinished (run_body fp t d orc) = true := by
  unfold run_body
  split_ifs <;> simp [isFinished]

theorem run_body_events_sedCalls (fp t d : String) (orc : Oracles) :
    sedCallsOf (eventsOf (run_body fp t d orc)) =
      if fp.isEmpty then [] else splitWhitespace fp := by
  unfold run_body
  split_ifs with h <;>
    simp [h, eventsOf, sedCalls_append, sedCalls_cons_stdout, sedCalls_nil,
      sedCalls_runLoop]

theorem run_body_events_queries (fp t d : String) (orc : Oracles) :
    queriesOf (eventsOf (run_body fp t d orc)) =
      if fp.isEmpty || t.isEmpty then []
      else (splitWhitespace fp).map (fun p => analysis_prompt p t) := by
  unfold run_body
  split_ifs with h <;> by_cases ht : t.isEmpty <;>
    simp [h, ht, eventsOf, queries_append, queries_cons_stdout, queries_nil,
      queries_runLoop] <;> simp_all

theorem run_main_to_body (env : Env) (orc : Oracles) (evs : List Event)
    (h : run_main env orc = RunResult.finished evs) :
    ∃ d, run_body (env.filePaths.getD "") (env.toolOutput.getD "") d orc =
      RunResult.finished evs := by
  rcases hpd : env.projectDir with _ | d
  · rcases hcw : orc.cwd with _ | d
    · simp [run_main, hpd, hcw] at h
    · exact ⟨d, by simpa [run_main, hpd, hcw] using h⟩
  · exact ⟨d, by simpa [run_main, hpd] using h⟩

theorem sedCalls_finished (env : Env) (orc : Oracles) (evs : List Event)
    (h : run_main env orc = RunResult.finished evs) :
    sedCallsOf evs =
      if (env.filePaths.getD "").isEmpty then []
      else splitWhitespace (env.filePaths.getD "") := by
  obtain ⟨d, hd⟩ := run_main_to_body env orc evs h
  have := run_body_events_sedCalls (env.filePaths.getD "") (env.toolOutput.getD "") d orc
  rw [hd] at this
  simpa [eventsOf] using this

theorem queries_finished (env : Env) (orc : Oracles) (evs : List Event)
    (h : run_main env orc = RunResult.finished evs) :
    queriesOf evs =
      if (env.filePaths.getD "").isEmpty || (env.toolOutput.getD "").isEmpty then []
      else (splitWhitespace (env.filePaths.getD "")).map
        (fun p => analysis_prompt p (env.toolOutput.getD "")) := by
  obtain ⟨d, hd⟩ := run_main_to_body env orc evs h
  have := run_body_events_queries (env.filePaths.getD "") (env.toolOutput.getD "") d orc
  rw [hd] at this
  simpa [eventsOf] using this

theorem run_main_finished_iff (env : Env) (orc : Oracles) :
    isFinished (run_main env orc) = true ↔
      (env.projectDir.isSome = true ∨ orc.cwd.isSome = true) := by
  rcases hpd : env.projectDir with _ | d
  · rcases hcw : orc.cwd with _ | d
    · simp [run_main, hpd, hcw, isFinished]
    · simp [run_main, hpd, hcw, run_body_finished]
  · simp [run_main, hpd, run_body_finished]

theorem proj_line_ne_warning (d : String) :
    ("📁 Project Directory: " ++ d) ≠ "⚠️  No file paths provided" := by
  intro h
  have h1 : ("📁 Project Directory: " ++ d).data = ("⚠️  No file paths provided").data := by
    rw [h]
  have h2 : ("📁 Project Directory: " ++ d).data = ("📁 Project Directory: ").data ++ d.data := by
    cases d
    rfl
  rw [h2] at h1
  have h3 : (("⚠️  No file paths provided").data).head? = some ('📁') := by
    rw [← h1, List.head?_append_of_ne_nil _ (by decide)]
    decide
  exact absurd h3 (by decide)

theorem splitWSAux_all_ws :
    ∀ cs : List Char, (∀ c ∈ cs, c.isWhitespace = true) → splitWSAux cs [] = [] := by
  intro cs
  induction cs with
  | nil => intro _; simp [splitWSAux]
  | cons c cs ih =>
    intro h
    have hc : c.isWhitespace = true := h c (by simp)
    simp [splitWSAux, hc]
    exact ih (fun x hx => h x (by simp [hx]))

theorem splitWhitespace_all_ws (s : String) (h : ∀ c ∈ s.toList, c.isWhitespace = true) :
    splitWhitespace s = [] :=
  splitWSAux_all_ws s.toList h

theorem run_main_pd (env : Env) (orc : Oracles) (d : String)
    (h : env.projectDir = some d) :
    run_main env orc =
      run_body (env.filePaths.getD "") (env.toolOutput.getD "") d orc := by
  simp [run_main, h]

theorem run_main_cwd (env : Env) (orc : Oracles) (d : String)
    (h1 : env.projectDir = none) (h2 : orc.cwd = some d) :
    run_main env orc =
      run_body (env.filePaths.getD "") (env.toolOutput.getD "") d orc := by
  simp [run_main, h1, h2]

theorem run_main_body_of_start (env : Env) (orc : Oracles)
    (hstart : env.projectDir.isSome = true ∨ orc.cwd.isSome = true) :
    ∃ d, run_main env orc =
      run_body (env.filePaths.getD "") (env.toolOutput.getD "") d orc := by
  rcases hpd : env.projectDir with _ | d
  · rcases hcw : orc.cwd with _ | d
    · rw [hpd, hcw] at hstart
      simp at hstart
    · exact ⟨d, run_main_cwd env orc d hpd hcw⟩
  · exact ⟨d, run_main_pd env orc d hpd⟩

theorem run_body_empty (fp t d : String) (orc : Oracles) (h : fp.isEmpty = true) :
    run_body fp t d orc = RunResult.finished
      [Event.stdout ("🔧 Claude Code PostToolUse Hook"),
       Event.stdout ("📁 Project Directory: " ++ d),
       Event.stdout ("⚠️  No file paths provided")] := by
  simp [run_body, h]

theorem run_body_nonempty (fp t d : String) (orc : Oracles) (h : fp.isEmpty = false) :
    run_body fp t d orc = RunResult.finished
      ([Event.stdout ("🔧 Claude Code PostToolUse Hook"),
        Event.stdout ("📁 Project Directory: " ++ d)] ++
       runLoop t orc 0 (splitWhitespace fp) ++
       [Event.stdout ("\n✅ Enhanced hook processed successfully")]) := by
  simp [run_body, h]

theorem run_body_ne_panicked (fp t d : String) (orc : Oracles) :
    run_body fp t d orc ≠ RunResult.panicked := by
  unfold run_body
  split_ifs <;> simp

theorem startsWithL_self : ∀ l : List Char, startsWithL l l = true := by
  intro l
  induction l with
  | nil => rfl
  | cons c cs ih => simp [startsWithL, ih]

theorem occursIn_suffix : ∀ pre sub : List Char, occursIn sub (pre ++ sub) = true := by
  intro pre
  induction pre with
  | nil =>
    intro sub
    cases sub with
    | nil => rfl
    | cons c cs => simp [occursIn, startsWithL_self]
  | cons c cs ih =>
    intro sub
    simp [occursIn, ih sub]

theorem containsStr_append_right (pre e : String) : containsStr (pre ++ e) e = true := by
  unfold containsStr
  have h : (pre ++ e).toList = pre.toList ++ e.toList := by
    cases pre
    cases e
    rfl
  rw [h]
  exact occursIn_suffix _ _

/-- C2: file-type classification is a pure, case-sensitive function of the
file path's extension, mapping main.rs to Rust, index.js and app.ts to
JavaScript/TypeScript, script.py to Python, data.json to JSON, Cargo.toml
to TOML, README.md to Markdown, and every path with an unknown or missing
extension (such as Makefile, or the wrong-case main.RS) to text. -/
theorem c2_file_type_map :
    get_file_type ("main.rs") = "Rust" ∧
    get_file_type ("index.js") = "JavaScript/TypeScript" ∧
    get_file_type ("app.ts") = "JavaScript/TypeScript" ∧
    get_file_type ("script.py") = "Python" ∧
    get_file_type ("data.json") = "JSON" ∧
    get_file_type ("Cargo.toml") = "TOML" ∧
    get_file_type ("README.md") = "Markdown" ∧
    get_file_type ("Makefile") = "text" ∧
    get_file_type ("main.RS") = "text" ∧
    (∀ p : String,
      (extension p = none ∨
        ∃ e, extension p = some e ∧
          e ∉ (["rs", "js", "ts", "py", "json", "toml", "md"] : List String)) →
      get_file_type p = "text") := by
  refine ⟨by decide, by decide, by decide, by decide, by decide, by decide,
    by decide, by decide, by decide, ?_⟩
  intro p h
  rcases h with h | ⟨e, he, hmem⟩
  · simp [get_file_type, h]
  · simp only [List.mem_cons, List.mem_singleton] at hmem
    push_neg at hmem
    simp [get_file_type, he, hmem]

/-- C2 witness: the default branch applied at a concrete unknown extension. -/
theorem c2_witness : get_file_type ("picture.png") = "text" :=
  c2_file_type_map.2.2.2.2.2.2.2.2.2 ("picture.png")
    (Or.inr ⟨"png", by decide, by decide⟩)

/-- C4: the run completes with exit code 0 for every oracle (so no
stream-editor, formatter, or analysis failure can change the result), and
the only non-zero exit is the startup panic, which happens exactly when
the project-directory variable is unset and working-directory resolution
fails. -/
theorem c4_exit_policy (env : Env) (orc : Oracles) :
    (isFinished (run_main env orc) = true ↔
      (env.projectDir.isSome = true ∨ orc.cwd.isSome = true)) ∧
    (run_main env orc = RunResult.panicked ↔
      (env.projectDir = none ∧ orc.cwd = none)) := by
  constructor
  · exact run_main_finished_iff env orc
  · rcases hpd : env.projectDir with _ | d
    · rcases hcw : orc.cwd with _ | d
      · simp [run_main, hpd, hcw]
      · simp [run_main, hpd, hcw, run_body_ne_panicked]
    · simp [run_main, hpd, run_body_ne_panicked]

/-- C10: get_file_type is total with range exactly the seven category
strings; it is a function of the extension alone, which is the portion
after the last dot of the final path component, so a.py.rs classifies as
Rust, and a final component that is a leading dot with no further dot,
such as .rs, has no extension and classifies as text. -/
theorem c10_file_type_total :
    (∀ p : String,
      get_file_type p = "Rust" ∨ get_file_type p = "JavaScript/TypeScript" ∨
      get_file_type p = "Python" ∨ get_file_type p = "JSON" ∨
      get_file_type p = "TOML" ∨ get_file_type p = "Markdown" ∨
      get_file_type p = "text") ∧
    (∀ p q : String, extension p = extension q →
      get_file_type p = get_file_type q) ∧
    get_file_type ("a.py.rs") = "Rust" ∧
    extension ("a.py.rs") = some ("rs") ∧
    extension (".rs") = none ∧
    get_file_type (".rs") = "text" := by
  refine ⟨?_, ?_, by decide, by decide, by decide, by decide⟩
  · intro p
    unfold get_file_type
    rcases hx : extension p with _ | e
    · simp
    · dsimp only
      split_ifs <;> simp
  · intro p q hpq
    unfold get_file_type
    rw [hpq]

/-- C10 witness: the factoring through the extension applied at two
concrete paths with the same extension. -/
theorem c10_witness : get_file_type ("left.rs") = get_file_type ("dir/right.rs") :=
  c10_file_type_total.2.1 ("left.rs") ("dir/right.rs") (by decide)

/-- C1 counterexample: with the file-paths variable set to three spaces,
the whitespace-split token sequence is empty, yet the program does not
print the no-file-paths warning (it still completes with exit code 0):
the emptiness check in main tests the raw string, not the token list. -/
theorem c1_counterexample :
    splitWhitespace (envC1.filePaths.getD "") = [] ∧
    envC1.filePaths.getD "" ≠ "" ∧
    isFinished (run_main envC1 orcDefault) = true ∧
    Event.stdout ("⚠️  No file paths provided") ∉ eventsOf (run_main envC1 orcDefault) := by
  decide

/-- C1 (amended): for every run whose file-paths variable value is the
empty string (unset, or set to the empty string), provided startup
directory resolution does not panic (the project-directory variable is
set or the working directory resolves), the program prints the
no-file-paths warning, performs no sed, rustfmt or claude invocations,
and terminates successfully with exit code 0. -/
theorem c1_empty_paths (env : Env) (orc : Oracles)
    (hfp : env.filePaths.getD "" = "")
    (hstart : env.projectDir.isSome = true ∨ orc.cwd.isSome = true) :
    ∃ evs, run_main env orc = RunResult.finished evs ∧
      Event.stdout ("⚠️  No file paths provided") ∈ evs ∧
      sedCallsOf evs = [] ∧ rustfmtCallsOf evs = [] ∧ queriesOf evs = [] := by
  obtain ⟨d, hd⟩ := run_main_body_of_start env orc hstart
  have hemp : (env.filePaths.getD "").isEmpty = true := by
    rw [hfp]
    decide
  rw [hd, run_body_empty (env.filePaths.getD "") (env.toolOutput.getD "") d orc hemp]
  refine ⟨_, rfl, by simp, ?_, ?_, ?_⟩
  · simp [sedCalls_cons_stdout, sedCalls_nil]
  · simp [rustfmtCalls_cons_stdout, rustfmtCalls_nil]
  · simp [queries_cons_stdout, queries_nil]

/-- C1 witness: the amended statement at a concrete environment with the
file-paths variable unset. -/
theorem c1_witness :
    ∃ evs, run_main envNoPaths orcDefault = RunResult.finished evs ∧
      Event.stdout ("⚠️  No file paths provided") ∈ evs ∧
      sedCallsOf evs = [] ∧ rustfmtCallsOf evs = [] ∧ queriesOf evs = [] :=
  c1_empty_paths envNoPaths orcDefault (by decide) (Or.inl (by decide))

/-- C5: for every run that completes with a non-empty file-paths value,
the sed cleanup invocations are exactly the whitespace-split tokens in
their original left-to-right order, so their number equals the token
count. -/
theorem c5_cleanup_per_token (env : Env) (orc : Oracles) (evs : List Event)
    (h : run_main env orc = RunResult.finished evs)
    (hne : env.filePaths.getD "" ≠ "") :
    sedCallsOf evs = splitWhitespace (env.filePaths.getD "") ∧
    (sedCallsOf evs).length = (splitWhitespace (env.filePaths.getD "")).length := by
  have hs := sedCalls_finished env orc evs h
  have hemp : ¬((env.filePaths.getD "").isEmpty = true) := by
    intro hh
    exact hne ((String.isEmpty_iff _).mp hh)
  rw [if_neg hemp] at hs
  exact ⟨hs, by rw [hs]⟩

/-- C5 witness: the cleanup-per-token statement at a concrete
environment with two file paths. -/
theorem c5_witness :
    sedCallsOf (eventsOf (run_main envW orcDefault)) =
      splitWhitespace (envW.filePaths.getD "") ∧
    (sedCallsOf (eventsOf (run_main envW orcDefault))).length =
      (splitWhitespace (envW.filePaths.getD "")).length :=
  c5_cleanup_per_token envW orcDefault (eventsOf (run_main envW orcDefault))
    (by decide) (by decide)

/-- C9: for every run whose file-paths value is non-empty but consists
only of whitespace, the program does not print the no-file-paths warning
(the emptiness check tests the raw string, not the token list), executes
zero loop iterations (no sed, rustfmt or claude invocations), prints the
final success line, and exits 0. -/
theorem c9_whitespace_only (env : Env) (orc : Oracles) (fp : String)
    (hfp : env.filePaths = some fp) (hne : fp ≠ "")
    (hws : ∀ c ∈ fp.toList, c.isWhitespace = true)
    (hstart : env.projectDir.isSome = true ∨ orc.cwd.isSome = true) :
    ∃ evs, run_main env orc = RunResult.finished evs ∧
      Event.stdout ("⚠️  No file paths provided") ∉ evs ∧
      sedCallsOf evs = [] ∧ rustfmtCallsOf evs = [] ∧ queriesOf evs = [] ∧
      Event.stdout ("\n✅ Enhanced hook processed successfully") ∈ evs := by
  obtain ⟨d, hd⟩ := run_main_body_of_start env orc hstart
  have hget : env.filePaths.getD "" = fp := by rw [hfp]; rfl
  have hemp : fp.isEmpty = false := by
    rcases hb : fp.isEmpty with _ | _
    · rfl
    · exact absurd ((String.isEmpty_iff _).mp hb) hne
  have htok : splitWhitespace fp = [] := splitWhitespace_all_ws fp hws
  rw [hd, hget, run_body_nonempty fp (env.toolOutput.getD "") d orc hemp, htok]
  refine ⟨_, rfl, ?_, ?_, ?_, ?_, ?_⟩
  · simp [runLoop]
    exact fun hh => proj_line_ne_warning d hh.symm
  · simp [runLoop, sedCalls_append, sedCalls_cons_stdout, sedCalls_nil]
  · simp [runLoop, rustfmtCalls_append, rustfmtCalls_cons_stdout, rustfmtCalls_nil]
  · simp [runLoop, queries_append, queries_cons_stdout, queries_nil]
  · simp [runLoop]

/-- C9 witness: the whitespace-only statement at the concrete
environment whose file-paths value is three spaces. -/
theorem c9_witness :
    ∃ evs, run_main envC1 orcDefault = RunResult.finished evs ∧
      Event.stdout ("⚠️  No file paths provided") ∉ evs ∧
      sedCallsOf evs = [] ∧ rustfmtCallsOf evs = [] ∧ queriesOf evs = [] ∧
      Event.stdout ("\n✅ Enhanced hook processed successfully") ∈ evs :=
  c9_whitespace_only envC1 orcDefault ("   ") (by decide) (by decide)
    (by decide) (Or.inl (by decide))

/-- C3: in every completed run the claude queries are exactly one per
token with the fixed template prompt when the tool-output text is
non-empty, and none otherwise; and the concrete prompt for file foo.rs
and tool output edited-3-lines equals the template instantiation and
contains the substrings Rust, edited 3 lines, and foo.rs. -/
theorem c3_analysis_prompt (env : Env) (orc : Oracles) (evs : List Event)
    (h : run_main env orc = RunResult.finished evs) :
    queriesOf evs =
      (if (env.filePaths.getD "").isEmpty || (env.toolOutput.getD "").isEmpty then []
       else (splitWhitespace (env.filePaths.getD "")).map
         (fun p => analysis_prompt p (env.toolOutput.getD ""))) ∧
    analysis_prompt ("foo.rs") ("edited 3 lines") =
      "Analyze this Rust file change for code quality and suggest improvements:\n\nTool Output: edited 3 lines\nFile: foo.rs" ∧
    containsStr (analysis_prompt ("foo.rs") ("edited 3 lines")) ("Rust") = true ∧
    containsStr (analysis_prompt ("foo.rs") ("edited 3 lines")) ("edited 3 lines") = true ∧
    containsStr (analysis_prompt ("foo.rs") ("edited 3 lines")) ("foo.rs") = true :=
  ⟨queries_finished env orc evs h, by decide, by decide, by decide, by decide⟩

/-- C3 witness: the prompt statement at a concrete two-file run with
non-empty tool output. -/
theorem c3_witness :
    queriesOf (eventsOf (run_main envW orcDefault)) =
      (if (envW.filePaths.getD "").isEmpty || (envW.toolOutput.getD "").isEmpty then []
       else (splitWhitespace (envW.filePaths.getD "")).map
         (fun p => analysis_prompt p (envW.toolOutput.getD ""))) ∧
    analysis_prompt ("foo.rs") ("edited 3 lines") =
      "Analyze this Rust file change for code quality and suggest improvements:\n\nTool Output: edited 3 lines\nFile: foo.rs" ∧
    containsStr (analysis_prompt ("foo.rs") ("edited 3 lines")) ("Rust") = true ∧
    containsStr (analysis_prompt ("foo.rs") ("edited 3 lines")) ("edited 3 lines") = true ∧
    containsStr (analysis_prompt ("foo.rs") ("edited 3 lines")) ("foo.rs") = true :=
  c3_analysis_prompt envW orcDefault (eventsOf (run_main envW orcDefault)) (by decide)

/-- C6: the sed invocation has exactly three outcomes, a success
confirmation on stdout, the tool's error text on stderr, or the launch
error on stderr, and in all three cases processing continues to the
formatting step; and in every completed run every token is processed
regardless of the sed oracle's outcomes. -/
theorem c6_sed_outcomes (r fres : CmdResult) (p : String) (env : Env) (orc : Oracles)
    (evs : List Event) (h : run_main env orc = RunResult.finished evs) :
    (∃ e, apply_smart_cleanup r fres p =
        Event.sedInvoke p :: e :: format_events fres p ∧
      (e = Event.stdout ("🧹 Removed trailing whitespace") ∨
       (∃ s, e = Event.stderr ("⚠️  sed failed: " ++ s)) ∨
       (∃ s, e = Event.stderr ("⚠️  Failed to run sed: " ++ s)))) ∧
    sedCallsOf evs =
      (if (env.filePaths.getD "").isEmpty then []
       else splitWhitespace (env.filePaths.getD "")) := by
  refine ⟨?_, sedCalls_finished env orc evs h⟩
  rcases r with ⟨_ | _, s⟩ | m
  · exact ⟨_, rfl, Or.inr (Or.inl ⟨s, rfl⟩)⟩
  · exact ⟨_, rfl, Or.inl rfl⟩
  · exact ⟨_, rfl, Or.inr (Or.inr ⟨m, rfl⟩)⟩

/-- C6 witness: the sed-outcome statement at a concrete outcome and a
concrete completed two-file run. -/
theorem c6_witness :
    (∃ e, apply_smart_cleanup (CmdResult.ok true ("")) (CmdResult.ok true ("")) ("x.rs") =
        Event.sedInvoke ("x.rs") :: e :: format_events (CmdResult.ok true ("")) ("x.rs") ∧
      (e = Event.stdout ("🧹 Removed trailing whitespace") ∨
       (∃ s, e = Event.stderr ("⚠️  sed failed: " ++ s)) ∨
       (∃ s, e = Event.stderr ("⚠️  Failed to run sed: " ++ s)))) ∧
    sedCallsOf (eventsOf (run_main envW orcDefault)) =
      (if (envW.filePaths.getD "").isEmpty then []
       else splitWhitespace (envW.filePaths.getD "")) :=
  c6_sed_outcomes (CmdResult.ok true ("")) (CmdResult.ok true ("")) ("x.rs")
    envW orcDefault (eventsOf (run_main envW orcDefault)) (by decide)

/-- C7: a failing claude call produces exactly a stderr diagnostic
containing the failure description, a successful one prints the labeled
analysis block with the full response verbatim, and in every completed
run every token is processed regardless of the claude oracle's
outcomes. -/
theorem c7_analysis_failure (q : QueryResult) (p t : String) (env : Env)
    (orc : Oracles) (evs : List Event)
    (h : run_main env orc = RunResult.finished evs) :
    (∀ e, q = QueryResult.err e →
      analyze_with_claude q p t =
        [Event.claudeQuery (analysis_prompt p t),
         Event.stderr ("⚠️  Claude analysis failed: " ++ e)] ∧
      containsStr ("⚠️  Claude analysis failed: " ++ e) e = true) ∧
    (∀ a, q = QueryResult.ok a →
      analyze_with_claude q p t =
        [Event.claudeQuery (analysis_prompt p t),
         Event.stdout ("🤖 Claude Analysis:"), Event.stdout a]) ∧
    sedCallsOf evs =
      (if (env.filePaths.getD "").isEmpty then []
       else splitWhitespace (env.filePaths.getD "")) := by
  refine ⟨?_, ?_, sedCalls_finished env orc evs h⟩
  · intro e he
    subst he
    exact ⟨rfl, containsStr_append_right _ e⟩
  · intro a ha
    subst ha
    rfl

/-- C7 witness: the analysis-failure statement at a concrete failing
query and a concrete completed two-file run. -/
theorem c7_witness :
    (∀ e, QueryResult.err ("boom") = QueryResult.err e →
      analyze_with_claude (QueryResult.err ("boom")) ("y.py") ("out") =
        [Event.claudeQuery (analysis_prompt ("y.py") ("out")),
         Event.stderr ("⚠️  Claude analysis failed: " ++ e)] ∧
      containsStr ("⚠️  Claude analysis failed: " ++ e) e = true) ∧
    (∀ a, QueryResult.err ("boom") = QueryResult.ok a →
      analyze_with_claude (QueryResult.err ("boom")) ("y.py") ("out") =
        [Event.claudeQuery (analysis_prompt ("y.py") ("out")),
         Event.stdout ("🤖 Claude Analysis:"), Event.stdout a]) ∧
    sedCallsOf (eventsOf (run_main envW orcDefault)) =
      (if (envW.filePaths.getD "").isEmpty then []
       else splitWhitespace (envW.filePaths.getD "")) :=
  c7_analysis_failure (QueryResult.err ("boom")) ("y.py") ("out")
    envW orcDefault (eventsOf (run_main envW orcDefault)) (by decide)

/-- C8: rustfmt is invoked exactly for files classified Rust, its
confirmation is printed only on success, the formatting step never
writes to stderr (failures are silently ignored), JSON files get only an
informational notice, other classifications produce nothing, and the
exit status of a run never depends on the sed, rustfmt or claude
oracles. -/
theorem c8_formatter_policy (r fres : CmdResult) (p : String) (env : Env)
    (orc orc2 : Oracles) (hc : orc2.cwd = orc.cwd) :
    (rustfmtCallsOf (apply_smart_cleanup r fres p) =
      if get_file_type p = "Rust" then [p] else []) ∧
    (List.drop 2 (apply_smart_cleanup r fres p) =
      if get_file_type p = "Rust" then
        Event.rustfmtInvoke p ::
          (if isSuccess fres = true then
            [Event.stdout ("🦀 Applied rustfmt formatting")]
          else [])
      else if get_file_type p = "JSON" then [Event.stdout ("📋 JSON file detected")]
      else []) ∧
    stderrOf (List.drop 2 (apply_smart_cleanup r fres p)) = [] ∧
    isFinished (run_main env orc) = isFinished (run_main env orc2) := by
  refine ⟨rustfmtCalls_apply r fres p, ?_, ?_, ?_⟩
  · rcases fres with ⟨_ | _, s2⟩ | m2 <;>
      simp only [apply_smart_cleanup, isSuccess, List.drop_succ_cons, List.drop_zero] <;>
      split_ifs <;> simp_all
  · rcases fres with ⟨_ | _, s2⟩ | m2 <;>
      simp only [apply_smart_cleanup, stderrOf, List.drop_succ_cons, List.drop_zero] <;>
      split_ifs <;> simp
  · rcases hpd : env.projectDir with _ | d
    · rcases hcw : orc.cwd with _ | d
      · rw [hcw] at hc
        simp [run_main, hpd, hcw, hc, isFinished]
      · rw [hcw] at hc
        simp [run_main, hpd, hcw, hc, run_body_finished]
    · simp [run_main, hpd, run_body_finished]

/-- C8 witness: the formatter-policy statement at a concrete failing
formatter outcome on a JSON file, with identical oracles. -/
theorem c8_witness :
    (rustfmtCallsOf (apply_smart_cleanup (CmdResult.launchErr ("gone"))
        (CmdResult.ok false ("")) ("z.json")) =
      if get_file_type ("z.json") = "Rust" then [("z.json" : String)] else []) ∧
    (List.drop 2 (apply_smart_cleanup (CmdResult.launchErr ("gone"))
        (CmdResult.ok false ("")) ("z.json")) =
      if get_file_type ("z.json") = "Rust" then
        Event.rustfmtInvoke ("z.json") ::
          (if isSuccess (CmdResult.ok false ("")) = true then
            [Event.stdout ("🦀 Applied rustfmt formatting")]
          else [])
      else if get_file_type ("z.json") = "JSON" then
        [Event.stdout ("📋 JSON file detected")]
      else []) ∧
    stderrOf (List.drop 2 (apply_smart_cleanup (CmdResult.launchErr ("gone"))
        (CmdResult.ok false ("")) ("z.json"))) = [] ∧
    isFinished (run_main envW orcDefault) = isFinished (run_main envW orcDefault) :=
  c8_formatter_policy (CmdResult.launchErr ("gone")) (CmdResult.ok false (""))
    ("z.json") envW orcDefault orcDefault rfl
